import Mathlib

/-!
Verification of the SinkWaterHeater firmware (src/SinkWaterHeater.ino).

The development shallowly embeds the two decision-making parts of the
firmware:

* the alert-escalation finite state machine driven by `loop`
  (states `INIT, BEEP_1, BEEP_2, BEEP_3, BEEP_INDEF`, globals
  `prog_state` and `timeHeatingStarted`, thresholds `T_BEEP_1..3`), and
* the temperature display renderer `showTemperature` with its helpers
  `resetDisplay`, `dispCenterX`, `dispCenterY`.

Arduino `unsigned long` arithmetic (`millis()/1000 - timeHeatingStarted`)
is modelled as subtraction modulo 2^32 (`u32sub`).  The Adafruit display
object is modelled as a record `Disp` holding the retained in-memory
buffer, the physically presented screen (last flushed buffer), the text
cursor and the text settings; every display call the renderer makes is
recorded in an operation trace (`DispOp`) so that claims about "no
clear / no redraw" can be stated exactly.  `tempC` is modelled as a
rational number; `dtostrf(tempC, 2, 1, buf)` is modelled as rounding to
one decimal, half away from zero (the minimum field width 2 never pads,
since a one-decimal string has at least three characters).
-/

namespace SinkWaterHeater

/-- 2^32, the modulus of Arduino `unsigned long` arithmetic. -/
def U32 : Nat := 4294967296

/-- C `unsigned long` subtraction `a - b` (wrap-around modulo 2^32). -/
def u32sub (a b : Nat) : Nat := (a % U32 + (U32 - b % U32)) % U32

/-- `#define T_BEEP_1 60` -/
def T_BEEP_1 : Nat := 60

/-- `#define T_BEEP_2 120` -/
def T_BEEP_2 : Nat := 120

/-- `#define T_BEEP_3 180` -/
def T_BEEP_3 : Nat := 180

/-- `enum prog_state_t { INIT, BEEP_1, BEEP_2, BEEP_3, BEEP_INDEF }`.
The spec's stage names map as: Idle = `INIT`, Warning1 = `BEEP_1`,
Warning2 = `BEEP_2`, Warning3 = `BEEP_3`, Continuous = `BEEP_INDEF`. -/
inductive ProgState where
  | INIT
  | BEEP_1
  | BEEP_2
  | BEEP_3
  | BEEP_INDEF
deriving DecidableEq

/-- The mutable globals of the state machine: `prog_state` and
`timeHeatingStarted`. -/
structure FsmState where
  prog_state : ProgState
  timeHeatingStarted : Nat
deriving DecidableEq

/-- Global initial values: `prog_state = INIT`, `timeHeatingStarted = 0`. -/
def initFsm : FsmState := ⟨ProgState.INIT, 0⟩

/-- One iteration of the `switch(prog_state)` block of `loop`
(src/SinkWaterHeater.ino lines 140-180).  `ms` is the value returned by
`millis()` this cycle (a value `< 2^32` on the device).  The returned
`Nat` counts calls to `beepOnce()` made by this cycle (0 or 1).
Temperature readings do not enter the switch at all. -/
def loopStep (ms : Nat) (s : FsmState) : FsmState × Nat :=
  match s.prog_state with
  | ProgState.INIT =>
      ({ s with prog_state := ProgState.BEEP_1, timeHeatingStarted := ms / 1000 }, 0)
  | ProgState.BEEP_1 =>
      if u32sub (ms / 1000) s.timeHeatingStarted > T_BEEP_1 then
        ({ s with prog_state := ProgState.BEEP_2 }, 1)
      else (s, 0)
  | ProgState.BEEP_2 =>
      if u32sub (ms / 1000) s.timeHeatingStarted > T_BEEP_2 then
        ({ s with prog_state := ProgState.BEEP_3 }, 1)
      else (s, 0)
  | ProgState.BEEP_3 =>
      if u32sub (ms / 1000) s.timeHeatingStarted > T_BEEP_3 then
        ({ s with prog_state := ProgState.BEEP_INDEF }, 1)
      else (s, 0)
  | ProgState.BEEP_INDEF => (s, 1)

/-- The machine state before cycle `i`, for a session whose `millis()`
reading at cycle `j` is `ms j`.  Cycle 0 starts from the global initial
values. -/
def fsmAt (ms : Nat → Nat) : Nat → FsmState
  | 0 => initFsm
  | i + 1 => (loopStep (ms i) (fsmAt ms i)).1

/-- The number of alert pulses (`beepOnce()` calls) emitted by cycle `i`. -/
def pulseAt (ms : Nat → Nat) (i : Nat) : Nat :=
  (loopStep (ms i) (fsmAt ms i)).2

/-- Elapsed whole seconds at cycle `i`, relative to the session start
recorded at cycle 0: `millis()/1000 - timeHeatingStarted` in `unsigned
long` arithmetic, with `timeHeatingStarted = ms 0 / 1000`. -/
def elapsedAt (ms : Nat → Nat) (i : Nat) : Nat :=
  u32sub (ms i / 1000) (ms 0 / 1000)

/-- Position of a state in the escalation order
Idle < Warning1 < Warning2 < Warning3 < Continuous. -/
def stageIdx : ProgState → Nat
  | ProgState.INIT => 0
  | ProgState.BEEP_1 => 1
  | ProgState.BEEP_2 => 2
  | ProgState.BEEP_3 => 3
  | ProgState.BEEP_INDEF => 4

/-- The state the machine should be in right after processing a cycle
whose elapsed time was `e` (used as the induction invariant: with
sub-second cycles the machine tracks this function of elapsed time). -/
def stateOf (e : Nat) : ProgState :=
  if e > T_BEEP_3 then ProgState.BEEP_INDEF
  else if e > T_BEEP_2 then ProgState.BEEP_3
  else if e > T_BEEP_1 then ProgState.BEEP_2
  else ProgState.BEEP_1

/-! ## Display renderer model -/

/-- `SSD1306_WHITE` / `WHITE` colour constant. -/
def WHITE : Nat := 1

/-- `#define DISP_ROT 2` (180-degree rotation; width/height unchanged). -/
def DISP_ROT : Nat := 2

/-- `disp.width()` — the display is constructed as 128x64 and only ever
rotated by `DISP_ROT = 2`, so width stays 128. -/
def dispWidth : Int := 128

/-- `disp.height()` — 64, see `dispWidth`. -/
def dispHeight : Int := 64

/-- One item retained in the display buffer: a text run printed at a
cursor position with a text size and colour, or a rectangle outline. -/
inductive DrawCmd where
  | text (s : String) (x y : Int) (size : Nat) (color : Nat)
  | rect (x y w h : Int) (color : Nat)
deriving DecidableEq

/-- One display-library call made by the renderer (the operation trace). -/
inductive DispOp where
  | clearDisplay
  | setRotation (r : Nat)
  | setCursor (x y : Int)
  | setTextSize (sz : Nat)
  | setTextColor (c : Nat)
  | printStr (s : String)
  | drawRect (x y w h : Int) (c : Nat)
  | display
deriving DecidableEq

/-- The Adafruit_SSD1306 object: the retained in-memory `buffer`, the
physically presented `screen` (contents at the last `display()` flush),
the text cursor, and the current text settings.  `print` appends a text
run to the buffer and advances the cursor by 6 pixels per character per
text size unit (classic 6x8 font, no wrapping occurs for the strings the
firmware prints). -/
structure Disp where
  buffer : List DrawCmd
  screen : List DrawCmd
  cursorX : Int
  cursorY : Int
  textSize : Nat
  rotation : Nat
  textColor : Nat
deriving DecidableEq

/-- Semantics of one display call. -/
def applyOp (d : Disp) : DispOp → Disp
  | DispOp.clearDisplay => { d with buffer := [] }
  | DispOp.setRotation r => { d with rotation := r }
  | DispOp.setCursor x y => { d with cursorX := x, cursorY := y }
  | DispOp.setTextSize sz => { d with textSize := sz }
  | DispOp.setTextColor c => { d with textColor := c }
  | DispOp.printStr s =>
      { d with
        buffer := d.buffer ++ [DrawCmd.text s d.cursorX d.cursorY d.textSize d.textColor],
        cursorX := d.cursorX + 6 * (d.textSize : Int) * (s.length : Int) }
  | DispOp.drawRect x y w h c => { d with buffer := d.buffer ++ [DrawCmd.rect x y w h c] }
  | DispOp.display => { d with screen := d.buffer }

/-- Perform one display call and record it in the trace. -/
def emit (st : Disp × List DispOp) (op : DispOp) : Disp × List DispOp :=
  (applyOp st.1 op, st.2 ++ [op])

/-- `resetDisplay()` (src/SinkWaterHeater.ino lines 258-264). -/
def resetDisplay (st : Disp × List DispOp) : Disp × List DispOp :=
  emit (emit (emit (emit (emit st DispOp.clearDisplay)
    (DispOp.setRotation DISP_ROT)) (DispOp.setCursor 0 0))
    (DispOp.setTextSize 1)) (DispOp.setTextColor WHITE)

/-- The x coordinate computed by `dispCenterX`:
`(disp.width() - 6*textSize*strlen(str))/2`. -/
def ctrX (textSize : Nat) (s : String) : Int :=
  (dispWidth - 6 * (textSize : Int) * (s.length : Int)) / 2

/-- The y coordinate computed by `dispCenterY`:
`(disp.height() - 8*textSize)/2`. -/
def ctrY (textSize : Nat) : Int :=
  (dispHeight - 8 * (textSize : Int)) / 2

/-- `dispCenterX(str, textSize)` (lines 271-274): horizontally centre the
cursor for `str`, keeping the current y. -/
def dispCenterX (s : String) (textSize : Nat) (st : Disp × List DispOp) :
    Disp × List DispOp :=
  emit st (DispOp.setCursor (ctrX textSize s) st.1.cursorY)

/-- `dispCenterY(str, textSize)` (lines 281-284): vertically centre the
cursor, keeping the current x (the string argument is unused, as in the
source). -/
def dispCenterY (_s : String) (textSize : Nat) (st : Disp × List DispOp) :
    Disp × List DispOp :=
  emit st (DispOp.setCursor st.1.cursorX (ctrY textSize))

/-- The integer number of tenths produced by rounding `q` to one decimal
place, half away from zero (the rounding avr-libc `dtostrf` performs). -/
def roundTenths (q : ℚ) : Int :=
  if 0 ≤ q then (20 * q.num + (q.den : Int)) / (2 * (q.den : Int))
  else -((20 * (-q.num) + (q.den : Int)) / (2 * (q.den : Int)))

/-- `dtostrf(tempC, 2, 1, buf)`: the one-decimal string for `tempC`.
The minimum field width 2 never pads, since the result has at least
three characters. -/
def dtostrf1 (q : ℚ) : String :=
  let t := roundTenths q
  let n := t.natAbs
  (if t < 0 then "-" else "") ++ toString (n / 10) ++ "." ++ toString (n % 10)

/-- `showTemperature()` (src/SinkWaterHeater.ino lines 203-253) acting on
the display `d`, for the current reading `tempC`.  Returns the display
after the call together with the trace of display calls made.

Control flow from the source: `resetDisplay()` first; then
if `tempC == -127.0` draw the two-line sensor-disconnected message;
else if `tempC > 50` return immediately (glitch suppression — note the
buffer was already cleared, but nothing is drawn or flushed);
else format with `dtostrf`, print centred at text size 2; finally (in
the non-glitch cases) draw the border rectangle and flush with
`disp.display()`. -/
def showTemperature (tempC : ℚ) (d : Disp) : Disp × List DispOp :=
  let st := resetDisplay (d, [])
  if tempC = -127 then
    let st := emit st (DispOp.setTextSize 1)
    let st := dispCenterX "Error: Temperature" 1 st
    let st := dispCenterY "Error: Temperature" 1 st
    let st := emit st (DispOp.printStr "Error: Temperature")
    let st := dispCenterX "Sensor Disconnected" 1 st
    let st := emit st (DispOp.setCursor st.1.cursorX (st.1.cursorY + 10))
    let st := emit st (DispOp.printStr "Sensor Disconnected")
    let st := emit st (DispOp.drawRect 0 0 dispWidth dispHeight WHITE)
    emit st DispOp.display
  else if 50 < tempC then
    st
  else
    let strBuf := dtostrf1 tempC ++ " C"
    let st := emit st (DispOp.setRotation DISP_ROT)
    let st := emit st (DispOp.setTextSize 2)
    let st := dispCenterX strBuf 2 st
    let st := dispCenterY strBuf 2 st
    let st := emit st (DispOp.setRotation DISP_ROT)
    let st := emit st (DispOp.printStr strBuf)
    let st := emit st (DispOp.drawRect 0 0 dispWidth dispHeight WHITE)
    emit st DispOp.display

/-- A display in its power-on state (empty buffer and screen). -/
def initDisp : Disp := ⟨[], [], 0, 0, 1, 0, 1⟩

/-- A display that has already successfully rendered a valid reading
(20.0 degrees) — a concrete "previously displayed content". -/
def dPrior : Disp := (showTemperature 20 initDisp).1

/-- The frame flushed to the screen for a valid reading `q`: the
formatted temperature centred at text size 2, plus the border
rectangle. -/
def validFrame (q : ℚ) : List DrawCmd :=
  [DrawCmd.text (dtostrf1 q ++ " C") (ctrX 2 (dtostrf1 q ++ " C")) (ctrY 2) 2 WHITE,
   DrawCmd.rect 0 0 dispWidth dispHeight WHITE]

/-- The trace of the glitch-suppression path: `resetDisplay()` only —
no print, no rectangle, no flush. -/
def glitchTrace : List DispOp :=
  [DispOp.clearDisplay, DispOp.setRotation DISP_ROT, DispOp.setCursor 0 0,
   DispOp.setTextSize 1, DispOp.setTextColor WHITE]

/-- The frame flushed to the screen for the sensor-fault sentinel: the
two-line "sensor disconnected" message plus the border rectangle. -/
def faultFrame : List DrawCmd :=
  [DrawCmd.text "Error: Temperature" (ctrX 1 "Error: Temperature") (ctrY 1) 1 WHITE,
   DrawCmd.text "Sensor Disconnected" (ctrX 1 "Sensor Disconnected") (ctrY 1 + 10) 1 WHITE,
   DrawCmd.rect 0 0 dispWidth dispHeight WHITE]

/-- The full trace of display calls on the sensor-fault path. -/
def faultTrace : List DispOp :=
  [DispOp.clearDisplay, DispOp.setRotation DISP_ROT, DispOp.setCursor 0 0,
   DispOp.setTextSize 1, DispOp.setTextColor WHITE,
   DispOp.setTextSize 1,
   DispOp.setCursor (ctrX 1 "Error: Temperature") 0,
   DispOp.setCursor (ctrX 1 "Error: Temperature") (ctrY 1),
   DispOp.printStr "Error: Temperature",
   DispOp.setCursor (ctrX 1 "Sensor Disconnected") (ctrY 1),
   DispOp.setCursor (ctrX 1 "Sensor Disconnected") (ctrY 1 + 10),
   DispOp.printStr "Sensor Disconnected",
   DispOp.drawRect 0 0 dispWidth dispHeight WHITE,
   DispOp.display]

/-- The full trace of display calls on the valid-reading path. -/
def validTrace (q : ℚ) : List DispOp :=
  let s := dtostrf1 q ++ " C"
  [DispOp.clearDisplay, DispOp.setRotation DISP_ROT, DispOp.setCursor 0 0,
   DispOp.setTextSize 1, DispOp.setTextColor WHITE,
   DispOp.setRotation DISP_ROT, DispOp.setTextSize 2,
   DispOp.setCursor (ctrX 2 s) 0, DispOp.setCursor (ctrX 2 s) (ctrY 2),
   DispOp.setRotation DISP_ROT, DispOp.printStr s,
   DispOp.drawRect 0 0 dispWidth dispHeight WHITE,
   DispOp.display]

end SinkWaterHeater

namespace SinkWaterHeater

theorem u32sub_self (a : Nat) : u32sub a a = 0 := by
  unfold u32sub U32
  omega

theorem u32sub_eq_sub {a b : Nat} (ha : a < U32) (hb : b ≤ a) :
    u32sub a b = a - b := by
  unfold u32sub U32 at *
  omega

/-! ### State machine: step lemmas -/

theorem loopStep_mk_INIT (ms t : Nat) :
    loopStep ms ⟨ProgState.INIT, t⟩ = (⟨ProgState.BEEP_1, ms / 1000⟩, 0) := rfl

theorem loopStep_mk_BEEP_1 (ms t : Nat) :
    loopStep ms ⟨ProgState.BEEP_1, t⟩ =
      if T_BEEP_1 < u32sub (ms / 1000) t
      then (⟨ProgState.BEEP_2, t⟩, 1) else (⟨ProgState.BEEP_1, t⟩, 0) := rfl

theorem loopStep_mk_BEEP_2 (ms t : Nat) :
    loopStep ms ⟨ProgState.BEEP_2, t⟩ =
      if T_BEEP_2 < u32sub (ms / 1000) t
      then (⟨ProgState.BEEP_3, t⟩, 1) else (⟨ProgState.BEEP_2, t⟩, 0) := rfl

theorem loopStep_mk_BEEP_3 (ms t : Nat) :
    loopStep ms ⟨ProgState.BEEP_3, t⟩ =
      if T_BEEP_3 < u32sub (ms / 1000) t
      then (⟨ProgState.BEEP_INDEF, t⟩, 1) else (⟨ProgState.BEEP_3, t⟩, 0) := rfl

theorem loopStep_INDEF (ms : Nat) (s : FsmState)
    (h : s.prog_state = ProgState.BEEP_INDEF) : loopStep ms s = (s, 1) := by
  simp [loopStep, h]

theorem loopStep_keeps_start (ms : Nat) (s : FsmState)
    (h : s.prog_state ≠ ProgState.INIT) :
    (loopStep ms s).1.timeHeatingStarted = s.timeHeatingStarted := by
  cases hp : s.prog_state <;> simp [loopStep, hp] at h ⊢ <;> split <;> rfl

theorem stageIdx_le_loopStep (ms : Nat) (s : FsmState) :
    stageIdx s.prog_state ≤ stageIdx (loopStep ms s).1.prog_state := by
  cases hp : s.prog_state <;> simp only [loopStep, hp] <;>
    first
      | (split_ifs <;> simp [stageIdx, hp])
      | simp [stageIdx, hp]

/-! ### State machine: the run-level invariant -/

theorem stateOf_eq_one {e : Nat} (h : e ≤ T_BEEP_1) : stateOf e = ProgState.BEEP_1 := by
  have c1 : T_BEEP_1 < T_BEEP_2 := by decide
  have c2 : T_BEEP_2 < T_BEEP_3 := by decide
  unfold stateOf
  rw [if_neg (by omega), if_neg (by omega), if_neg (by omega)]

theorem stateOf_eq_two {e : Nat} (h1 : T_BEEP_1 < e) (h2 : e ≤ T_BEEP_2) :
    stateOf e = ProgState.BEEP_2 := by
  have c2 : T_BEEP_2 < T_BEEP_3 := by decide
  unfold stateOf
  rw [if_neg (by omega), if_neg (by omega), if_pos (by omega)]

theorem stateOf_eq_three {e : Nat} (h1 : T_BEEP_2 < e) (h2 : e ≤ T_BEEP_3) :
    stateOf e = ProgState.BEEP_3 := by
  unfold stateOf
  rw [if_neg (by omega), if_pos (by omega)]

theorem stateOf_eq_indef {e : Nat} (h : T_BEEP_3 < e) :
    stateOf e = ProgState.BEEP_INDEF := by
  unfold stateOf
  rw [if_pos (by omega)]

theorem ms_mono' (ms : Nat → Nat) (hmono : ∀ i, ms i ≤ ms (i + 1)) :
    ∀ i k, ms i ≤ ms (i + k) := by
  intro i k
  induction k with
  | zero => exact le_rfl
  | succ n ih => exact ih.trans (hmono (i + n))

theorem elapsed_zero (ms : Nat → Nat) : elapsedAt ms 0 = 0 := u32sub_self _

theorem elapsedAt_eq (ms : Nat → Nat) (hmono : ∀ i, ms i ≤ ms (i + 1))
    (hbound : ∀ i, ms i < U32) (i : Nat) :
    elapsedAt ms i = ms i / 1000 - ms 0 / 1000 := by
  unfold elapsedAt
  apply u32sub_eq_sub
  · exact Nat.lt_of_le_of_lt (Nat.div_le_self _ _) (hbound i)
  · have h0 : ms 0 ≤ ms i := by simpa using ms_mono' ms hmono 0 i
    exact Nat.div_le_div_right h0

theorem elapsed_step_le (ms : Nat → Nat) (hmono : ∀ i, ms i ≤ ms (i + 1))
    (hbound : ∀ i, ms i < U32) (n : Nat) :
    elapsedAt ms n ≤ elapsedAt ms (n + 1) := by
  rw [elapsedAt_eq ms hmono hbound n, elapsedAt_eq ms hmono hbound (n + 1)]
  have h : ms n / 1000 ≤ ms (n + 1) / 1000 := Nat.div_le_div_right (hmono n)
  omega

theorem elapsed_step_ub (ms : Nat → Nat) (hmono : ∀ i, ms i ≤ ms (i + 1))
    (hbound : ∀ i, ms i < U32)
    (hstep : ∀ i, ms (i + 1) / 1000 ≤ ms i / 1000 + 1) (n : Nat) :
    elapsedAt ms (n + 1) ≤ elapsedAt ms n + 1 := by
  rw [elapsedAt_eq ms hmono hbound n, elapsedAt_eq ms hmono hbound (n + 1)]
  have h1 := hstep n
  have h2 : ms 0 / 1000 ≤ ms n / 1000 :=
    Nat.div_le_div_right (by simpa using ms_mono' ms hmono 0 n)
  omega

/-- Run-level invariant: with a monotone, in-range clock sampled at least
once per second, after cycle `i` the machine is exactly in the stage
determined by the elapsed time it saw at cycle `i`, and the recorded
start time is the one captured at cycle 0. -/
theorem fsm_inv (ms : Nat → Nat) (hmono : ∀ i, ms i ≤ ms (i + 1))
    (hbound : ∀ i, ms i < U32)
    (hstep : ∀ i, ms (i + 1) / 1000 ≤ ms i / 1000 + 1) :
    ∀ i, fsmAt ms (i + 1) = ⟨stateOf (elapsedAt ms i), ms 0 / 1000⟩ := by
  intro i
  induction i with
  | zero =>
      show (loopStep (ms 0) initFsm).1 = _
      rw [elapsed_zero ms, stateOf_eq_one (by decide)]
      rfl
  | succ n ih =>
      have hle := elapsed_step_le ms hmono hbound n
      have hub := elapsed_step_ub ms hmono hbound hstep n
      have hu : u32sub (ms (n + 1) / 1000) (ms 0 / 1000) = elapsedAt ms (n + 1) := rfl
      have c1 : T_BEEP_1 < T_BEEP_2 := by decide
      have c2 : T_BEEP_2 < T_BEEP_3 := by decide
      show (loopStep (ms (n + 1)) (fsmAt ms (n + 1))).1 = _
      rw [ih]
      rcases Nat.lt_or_ge T_BEEP_3 (elapsedAt ms n) with h3 | h3
      · rw [stateOf_eq_indef h3,
          loopStep_INDEF _ _ rfl, stateOf_eq_indef (by omega)]
      · rcases Nat.lt_or_ge T_BEEP_2 (elapsedAt ms n) with h2 | h2
        · rw [stateOf_eq_three h2 h3, loopStep_mk_BEEP_3, hu]
          rcases Nat.lt_or_ge T_BEEP_3 (elapsedAt ms (n + 1)) with hc | hc
          · rw [if_pos hc, stateOf_eq_indef hc]
          · rw [if_neg (by omega), stateOf_eq_three (by omega) (by omega)]
        · rcases Nat.lt_or_ge T_BEEP_1 (elapsedAt ms n) with h1 | h1
          · rw [stateOf_eq_two h1 h2, loopStep_mk_BEEP_2, hu]
            rcases Nat.lt_or_ge T_BEEP_2 (elapsedAt ms (n + 1)) with hc | hc
            · rw [if_pos hc, stateOf_eq_three hc (by omega)]
            · rw [if_neg (by omega), stateOf_eq_two (by omega) (by omega)]
          · rw [stateOf_eq_one h1, loopStep_mk_BEEP_1, hu]
            rcases Nat.lt_or_ge T_BEEP_1 (elapsedAt ms (n + 1)) with hc | hc
            · rw [if_pos hc, stateOf_eq_two hc (by omega)]
            · rw [if_neg (by omega), stateOf_eq_one (by omega)]

theorem stage_mono (ms : Nat → Nat) (i k : Nat) :
    stageIdx (fsmAt ms i).prog_state ≤ stageIdx (fsmAt ms (i + k)).prog_state := by
  induction k with
  | zero => exact le_rfl
  | succ n ih => exact ih.trans (stageIdx_le_loopStep (ms (i + n)) (fsmAt ms (i + n)))

/-! ### Claim theorems for the state machine -/

/-- C1.  In a session driven from the initial state by a `millis()` clock
that is non-decreasing, in `unsigned long` range, and sampled at least
once per second (the spec's sub-second control cycle), the cycle at which
elapsed time first exceeds each of T1 = 60 s, T2 = 120 s, T3 = 180 s
emits exactly one alert pulse (one `beepOnce()` call, one per state
transition), and every cycle whose elapsed time is still at or below T1
emits zero pulses. -/
theorem C1_pulse_schedule (ms : Nat → Nat) (hmono : ∀ i, ms i ≤ ms (i + 1))
    (hbound : ∀ i, ms i < U32)
    (hstep : ∀ i, ms (i + 1) / 1000 ≤ ms i / 1000 + 1) :
    (∀ i, elapsedAt ms i ≤ T_BEEP_1 → pulseAt ms i = 0) ∧
    (∀ i, T_BEEP_1 < elapsedAt ms i →
      (∀ j, j < i → elapsedAt ms j ≤ T_BEEP_1) → pulseAt ms i = 1) ∧
    (∀ i, T_BEEP_2 < elapsedAt ms i →
      (∀ j, j < i → elapsedAt ms j ≤ T_BEEP_2) → pulseAt ms i = 1) ∧
    (∀ i, T_BEEP_3 < elapsedAt ms i →
      (∀ j, j < i → elapsedAt ms j ≤ T_BEEP_3) → pulseAt ms i = 1) := by
  have c1 : T_BEEP_1 < T_BEEP_2 := by decide
  have c2 : T_BEEP_2 < T_BEEP_3 := by decide
  refine ⟨?_, ?_, ?_, ?_⟩
  · intro i h
    match i with
    | 0 => rfl
    | n + 1 =>
      have hle := elapsed_step_le ms hmono hbound n
      have hs1 : stateOf (elapsedAt ms n) = ProgState.BEEP_1 :=
        stateOf_eq_one (by omega)
      have hu : u32sub (ms (n + 1) / 1000) (ms 0 / 1000) = elapsedAt ms (n + 1) := rfl
      unfold pulseAt
      rw [fsm_inv ms hmono hbound hstep n, hs1, loopStep_mk_BEEP_1, hu,
        if_neg (by omega)]
  · intro i hgt hfirst
    match i with
    | 0 =>
      have h0 := elapsed_zero ms
      omega
    | n + 1 =>
      have h1 : elapsedAt ms n ≤ T_BEEP_1 := hfirst n (by omega)
      have hs1 : stateOf (elapsedAt ms n) = ProgState.BEEP_1 := stateOf_eq_one h1
      have hu : u32sub (ms (n + 1) / 1000) (ms 0 / 1000) = elapsedAt ms (n + 1) := rfl
      unfold pulseAt
      rw [fsm_inv ms hmono hbound hstep n, hs1, loopStep_mk_BEEP_1, hu, if_pos hgt]
  · intro i hgt hfirst
    match i with
    | 0 =>
      have h0 := elapsed_zero ms
      omega
    | n + 1 =>
      have h1 : elapsedAt ms n ≤ T_BEEP_2 := hfirst n (by omega)
      have hub := elapsed_step_ub ms hmono hbound hstep n
      have hs1 : stateOf (elapsedAt ms n) = ProgState.BEEP_2 :=
        stateOf_eq_two (by omega) h1
      have hu : u32sub (ms (n + 1) / 1000) (ms 0 / 1000) = elapsedAt ms (n + 1) := rfl
      unfold pulseAt
      rw [fsm_inv ms hmono hbound hstep n, hs1, loopStep_mk_BEEP_2, hu, if_pos hgt]
  · intro i hgt hfirst
    match i with
    | 0 =>
      have h0 := elapsed_zero ms
      omega
    | n + 1 =>
      have h1 : elapsedAt ms n ≤ T_BEEP_3 := hfirst n (by omega)
      have hub := elapsed_step_ub ms hmono hbound hstep n
      have hs1 : stateOf (elapsedAt ms n) = ProgState.BEEP_3 :=
        stateOf_eq_three (by omega) h1
      have hu : u32sub (ms (n + 1) / 1000) (ms 0 / 1000) = elapsedAt ms (n + 1) := rfl
      unfold pulseAt
      rw [fsm_inv ms hmono hbound hstep n, hs1, loopStep_mk_BEEP_3, hu, if_pos hgt]

/-- Witness for C1: with a clock ticking exactly one second per cycle
(capped inside `unsigned long` range), the cycle whose elapsed time first
exceeds T1 = 60 (cycle 61) emits exactly one pulse. -/
theorem C1_pulse_schedule_witness :
    pulseAt (fun i => 1000 * min i 999) 61 = 1 := by
  have hmono : ∀ i, (fun i => 1000 * min i 999) i ≤ (fun i => 1000 * min i 999) (i + 1) := by
    intro i
    exact Nat.mul_le_mul_left 1000 (by omega)
  have hbound : ∀ i, (fun i => 1000 * min i 999) i < U32 := by
    intro i
    show 1000 * min i 999 < U32
    have h : min i 999 ≤ 999 := by omega
    have h2 : 1000 * min i 999 ≤ 1000 * 999 := Nat.mul_le_mul_left 1000 h
    have h3 : (1000 * 999 : Nat) < U32 := by decide
    omega
  have hstep : ∀ i, (fun i => 1000 * min i 999) (i + 1) / 1000 ≤
      (fun i => 1000 * min i 999) i / 1000 + 1 := by
    intro i
    simp only [Nat.mul_div_cancel_left _ (by norm_num : (0 : Nat) < 1000)]
    omega
  exact (C1_pulse_schedule _ hmono hbound hstep).2.1 61 (by decide) (by decide)

/-- C2.  Threshold comparisons are strict greater-than over whole elapsed
seconds: when the elapsed time (`millis()/1000 - timeHeatingStarted` in
`unsigned long` arithmetic) equals a threshold exactly, the machine stays
in its prior state and emits no pulse; in each waiting state the pulse
fires iff elapsed is strictly greater than that state's threshold. -/
theorem C2_strict_thresholds (ms : Nat) (s : FsmState) :
    ((s.prog_state = ProgState.BEEP_1 ∧
        u32sub (ms / 1000) s.timeHeatingStarted = T_BEEP_1) → loopStep ms s = (s, 0)) ∧
    ((s.prog_state = ProgState.BEEP_2 ∧
        u32sub (ms / 1000) s.timeHeatingStarted = T_BEEP_2) → loopStep ms s = (s, 0)) ∧
    ((s.prog_state = ProgState.BEEP_3 ∧
        u32sub (ms / 1000) s.timeHeatingStarted = T_BEEP_3) → loopStep ms s = (s, 0)) ∧
    (s.prog_state = ProgState.BEEP_1 →
      ((loopStep ms s).2 = 1 ↔ T_BEEP_1 < u32sub (ms / 1000) s.timeHeatingStarted)) ∧
    (s.prog_state = ProgState.BEEP_2 →
      ((loopStep ms s).2 = 1 ↔ T_BEEP_2 < u32sub (ms / 1000) s.timeHeatingStarted)) ∧
    (s.prog_state = ProgState.BEEP_3 →
      ((loopStep ms s).2 = 1 ↔ T_BEEP_3 < u32sub (ms / 1000) s.timeHeatingStarted)) := by
  refine ⟨?_, ?_, ?_, ?_, ?_, ?_⟩
  · rintro ⟨hp, he⟩
    simp only [loopStep, hp, he]
    rw [if_neg (lt_irrefl _)]
  · rintro ⟨hp, he⟩
    simp only [loopStep, hp, he]
    rw [if_neg (lt_irrefl _)]
  · rintro ⟨hp, he⟩
    simp only [loopStep, hp, he]
    rw [if_neg (lt_irrefl _)]
  · intro hp
    simp only [loopStep, hp]
    split_ifs with h <;> simp [h]
  · intro hp
    simp only [loopStep, hp]
    split_ifs with h <;> simp [h]
  · intro hp
    simp only [loopStep, hp]
    split_ifs with h <;> simp [h]

/-- Witness for C2: in state `BEEP_1` with `timeHeatingStarted = 0` at
`millis() = 60999` the elapsed time is exactly 60 s and the step keeps
the state and emits no pulse. -/
theorem C2_strict_thresholds_witness :
    loopStep 60999 ⟨ProgState.BEEP_1, 0⟩ = (⟨ProgState.BEEP_1, 0⟩, 0) :=
  (C2_strict_thresholds 60999 ⟨ProgState.BEEP_1, 0⟩).1 ⟨rfl, by decide⟩

/-- C3.  The alert state is non-decreasing in the stage order
Idle(`INIT`) < Warning1(`BEEP_1`) < Warning2(`BEEP_2`) <
Warning3(`BEEP_3`) < Continuous(`BEEP_INDEF`): for any clock trace
whatsoever, no step of the machine moves to an earlier stage. -/
theorem C3_monotone_stages (ms : Nat → Nat) (i j : Nat) (h : i ≤ j) :
    stageIdx (fsmAt ms i).prog_state ≤ stageIdx (fsmAt ms j).prog_state := by
  have hj : j = i + (j - i) := by omega
  rw [hj]
  exact stage_mono ms i (j - i)

/-- Witness for C3: along a concrete fast clock the stage at cycle 0 is
at most the stage at cycle 5. -/
theorem C3_monotone_stages_witness :
    stageIdx (fsmAt (fun i => 1000000 * i) 0).prog_state ≤
      stageIdx (fsmAt (fun i => 1000000 * i) 5).prog_state :=
  C3_monotone_stages (fun i => 1000000 * i) 0 5 (by omega)

/-- C4.  Once the terminal `BEEP_INDEF` (Continuous) state is reached the
machine never leaves it on any later cycle — for arbitrary clock values,
and temperature readings never enter `loopStep` at all — and every later
cycle emits exactly one pulse. -/
theorem C4_terminal_absorbing (ms : Nat → Nat) (i : Nat)
    (h : (fsmAt ms i).prog_state = ProgState.BEEP_INDEF) :
    ∀ k, (fsmAt ms (i + k)).prog_state = ProgState.BEEP_INDEF ∧
      pulseAt ms (i + k) = 1 := by
  intro k
  induction k with
  | zero =>
      refine ⟨h, ?_⟩
      unfold pulseAt
      simp only [Nat.add_zero]
      rw [loopStep_INDEF _ _ h]
  | succ n ih =>
      have hkeep : fsmAt ms (i + (n + 1)) = fsmAt ms (i + n) := by
        show (loopStep (ms (i + n)) (fsmAt ms (i + n))).1 = _
        rw [loopStep_INDEF _ _ ih.1]
      refine ⟨by rw [hkeep]; exact ih.1, ?_⟩
      unfold pulseAt
      rw [hkeep, loopStep_INDEF _ _ ih.1]

/-- Witness for C4: with a clock gaining 1000 s per cycle the machine is
in `BEEP_INDEF` at cycle 4, and five cycles later it is still there and
still pulsing once per cycle. -/
theorem C4_terminal_absorbing_witness :
    (fsmAt (fun i => 1000000 * i) (4 + 5)).prog_state = ProgState.BEEP_INDEF ∧
      pulseAt (fun i => 1000000 * i) (4 + 5) = 1 :=
  C4_terminal_absorbing (fun i => 1000000 * i) 4 (by decide) 5

/-- C8.  `timeHeatingStarted` is 0 before the first cycle, is recorded on
the first cycle of the session (the `INIT` case stores
`millis()/1000`), and no later cycle of the session ever changes it:
after every cycle `i + 1` it still equals `ms 0 / 1000`, for any clock
trace. -/
theorem C8_start_time_set_once (ms : Nat → Nat) :
    (fsmAt ms 0).timeHeatingStarted = 0 ∧
    (∀ i, (fsmAt ms (i + 1)).timeHeatingStarted = ms 0 / 1000) := by
  refine ⟨rfl, ?_⟩
  intro i
  induction i with
  | zero => rfl
  | succ n ih =>
      have hne : (fsmAt ms (n + 1)).prog_state ≠ ProgState.INIT := by
        intro hinit
        have h2 := stage_mono ms 1 n
        rw [Nat.add_comm 1 n, hinit] at h2
        have h1 : stageIdx (fsmAt ms 1).prog_state = 1 := rfl
        rw [h1] at h2
        simp [stageIdx] at h2
      show (loopStep (ms (n + 1)) (fsmAt ms (n + 1))).1.timeHeatingStarted = _
      rw [loopStep_keeps_start _ _ hne, ih]

/-! ### Renderer: branch lemmas -/

theorem showTemperature_glitch (q : ℚ) (d : Disp) (h : 50 < q) :
    showTemperature q d =
      ({ d with
          buffer := [],
          cursorX := 0,
          cursorY := 0,
          textSize := 1,
          rotation := DISP_ROT,
          textColor := WHITE }, glitchTrace) := by
  have h1 : ¬ q = -127 := by
    rintro rfl
    norm_num at h
  simp only [showTemperature, if_neg h1, if_pos h]
  rfl

theorem showTemperature_fault (d : Disp) :
    (showTemperature (-127) d).1.screen = faultFrame ∧
    (showTemperature (-127) d).2 = faultTrace := by
  constructor <;> rfl

theorem showTemperature_valid (q : ℚ) (d : Disp) (h1 : ¬ q = -127) (h2 : ¬ 50 < q) :
    (showTemperature q d).1.screen = validFrame q ∧
    (showTemperature q d).2 = validTrace q := by
  simp only [showTemperature, if_neg h1, if_neg h2]
  exact ⟨rfl, rfl⟩

/-! ### Claim theorems for the renderer -/

/-- Counterexample to C5 as stated: on a Glitch cycle (reading 51 > 50,
with real prior content on the screen) the renderer does perform a clear
— `resetDisplay()` runs, and `clearDisplay` appears in the call trace —
so "no clear and no redraw at all" is false of the code. -/
theorem C5_counterexample :
    DispOp.clearDisplay ∈ (showTemperature 51 dPrior).2 ∧ dPrior.screen ≠ [] := by
  constructor
  · rw [showTemperature_glitch 51 dPrior (by decide)]
    decide
  · decide

/-- C5 (amended).  On a Glitch cycle (reading strictly above the
plausibility ceiling 50) the renderer clears the in-memory buffer and
resets the text settings (the unconditional `resetDisplay()`), but draws
nothing and never flushes: the trace is exactly the reset calls, with no
`print` and no `display()`, so the physically presented content — the
`DisplayedValue` — is retained bit-for-bit. -/
theorem C5_glitch_no_redraw (q : ℚ) (d : Disp) (h : 50 < q) :
    (showTemperature q d).1.screen = d.screen ∧
    (showTemperature q d).2 = glitchTrace ∧
    DispOp.display ∉ (showTemperature q d).2 := by
  rw [showTemperature_glitch q d h]
  refine ⟨rfl, rfl, ?_⟩
  show DispOp.display ∉ glitchTrace
  decide

/-- Witness for C5: reading 51 over a display that had rendered 20.0
keeps the presented screen unchanged and performs only the reset calls. -/
theorem C5_glitch_no_redraw_witness :
    (showTemperature 51 dPrior).1.screen = dPrior.screen ∧
    (showTemperature 51 dPrior).2 = glitchTrace :=
  ⟨(C5_glitch_no_redraw 51 dPrior (by decide)).1,
   (C5_glitch_no_redraw 51 dPrior (by decide)).2.1⟩

/-- C6.  When the reading equals the fault sentinel −127.0 the renderer
draws the two-line "sensor disconnected" message (line 1 "Error:
Temperature" at (10, 28), line 2 "Sensor Disconnected" at (7, 38), text
size 1) and flushes it with `display()`, so it overwrites whatever was
previously displayed: the resulting screen is this fixed frame for every
prior display state `d`. -/
theorem C6_fault_message (d : Disp) :
    (showTemperature (-127) d).1.screen =
      [DrawCmd.text "Error: Temperature" 10 28 1 WHITE,
       DrawCmd.text "Sensor Disconnected" 7 38 1 WHITE,
       DrawCmd.rect 0 0 dispWidth dispHeight WHITE] ∧
    DispOp.display ∈ (showTemperature (-127) d).2 := by
  obtain ⟨h1, h2⟩ := showTemperature_fault d
  constructor
  · rw [h1]
    decide
  · rw [h2]
    decide

/-- C7.  A Valid reading (not the sentinel, not above the ceiling) is
formatted to one decimal place with rounding plus the unit suffix " C"
and drawn as size-2 text, flushed to the screen, horizontally centred at
left margin (display width − glyph width × character count) / 2 with
glyph width 6·2 = 12, and vertically centred at (display height − glyph
height) / 2; in particular 23.47 formats to "23.5". -/
theorem C7_valid_centered_format (q : ℚ) (d : Disp)
    (h1 : q ≠ -127) (h2 : ¬ 50 < q) :
    (showTemperature q d).1.screen =
      [DrawCmd.text (dtostrf1 q ++ " C") (ctrX 2 (dtostrf1 q ++ " C")) (ctrY 2) 2 WHITE,
       DrawCmd.rect 0 0 dispWidth dispHeight WHITE] ∧
    ctrX 2 (dtostrf1 q ++ " C") =
      (dispWidth - 12 * ((dtostrf1 q ++ " C").length : Int)) / 2 ∧
    ctrY 2 = (dispHeight - 8 * 2) / 2 ∧
    dtostrf1 (2347 / 100 : ℚ) = "23.5" := by
  have hb : (2347 / 100 : ℚ) = mkRat 2347 100 := by
    rw [Rat.mkRat_eq_divInt, Rat.divInt_eq_div]
    norm_num
  refine ⟨(showTemperature_valid q d h1 h2).1, ?_, by decide, by rw [hb]; decide⟩
  unfold ctrX
  congr 1

/-- Witness for C7: the reading 23.47 on a fresh display is rendered as
the centred size-2 string "23.5 C" at x = (128 − 12·6)/2 = 28, y = 24. -/
theorem C7_valid_centered_format_witness :
    (showTemperature (mkRat 2347 100) initDisp).1.screen =
      [DrawCmd.text "23.5 C" 28 24 2 1, DrawCmd.rect 0 0 128 64 1] := by
  have h := (C7_valid_centered_format (mkRat 2347 100) initDisp (by decide) (by decide)).1
  rw [h]
  decide

/-- C9.  The glitch boundary is strict: a reading exactly equal to the
plausibility ceiling 50 is classified Valid — it is formatted as
"50.0 C" and flushed to the screen — while any reading strictly greater
than 50 is suppressed (screen unchanged, no flush). -/
theorem C9_ceiling_boundary (d : Disp) :
    ((showTemperature 50 d).1.screen =
      [DrawCmd.text "50.0 C" 28 24 2 WHITE,
       DrawCmd.rect 0 0 dispWidth dispHeight WHITE] ∧
     DispOp.display ∈ (showTemperature 50 d).2) ∧
    (∀ q : ℚ, 50 < q → (showTemperature q d).1.screen = d.screen ∧
      DispOp.display ∉ (showTemperature q d).2) := by
  obtain ⟨hs, ht⟩ := showTemperature_valid 50 d (by decide) (by decide)
  refine ⟨⟨?_, ?_⟩, ?_⟩
  · rw [hs]
    decide
  · rw [ht]
    decide
  · intro q hq
    rw [showTemperature_glitch q d hq]
    refine ⟨rfl, ?_⟩
    show DispOp.display ∉ glitchTrace
    decide

/-- Witness for C9: on a display showing 20.0, the boundary reading 50
redraws the screen as "50.0 C" while 51 leaves it untouched. -/
theorem C9_ceiling_boundary_witness :
    (showTemperature 50 dPrior).1.screen =
      [DrawCmd.text "50.0 C" 28 24 2 WHITE,
       DrawCmd.rect 0 0 dispWidth dispHeight WHITE] ∧
    (showTemperature 51 dPrior).1.screen = dPrior.screen :=
  ⟨(C9_ceiling_boundary dPrior).1.1,
   ((C9_ceiling_boundary dPrior).2 51 (by decide)).1⟩

/-- C10.  Fault classification is an exact equality test against −127.0:
every reading different from −127 and at most the ceiling 50 — however
implausibly low — is rendered as a temperature (the valid frame, which
is not the fault frame); in particular −126.9 renders as "-126.9 C" and
−200 renders as "-200.0 C". -/
theorem C10_exact_sentinel (q : ℚ) (d : Disp) (h1 : q ≠ -127) (h2 : q ≤ 50) :
    (showTemperature q d).1.screen = validFrame q ∧
    (showTemperature q d).1.screen ≠ (showTemperature (-127) d).1.screen ∧
    (showTemperature (-1269 / 10 : ℚ) d).1.screen =
      [DrawCmd.text "-126.9 C" 16 24 2 WHITE,
       DrawCmd.rect 0 0 dispWidth dispHeight WHITE] ∧
    (showTemperature (-200 : ℚ) d).1.screen =
      [DrawCmd.text "-200.0 C" 16 24 2 WHITE,
       DrawCmd.rect 0 0 dispWidth dispHeight WHITE] := by
  have hv := (showTemperature_valid q d h1 (not_lt.mpr h2)).1
  obtain ⟨hf, _⟩ := showTemperature_fault d
  have hb : (-1269 / 10 : ℚ) = mkRat (-1269) 10 := by
    rw [Rat.mkRat_eq_divInt, Rat.divInt_eq_div]
    norm_num
  refine ⟨hv, ?_, ?_, ?_⟩
  · rw [hv, hf]
    simp [validFrame, faultFrame]
  · rw [hb, (showTemperature_valid (mkRat (-1269) 10) d (by decide) (by decide)).1]
    decide
  · rw [(showTemperature_valid (-200 : ℚ) d (by decide) (by decide)).1]
    decide

/-- Witness for C10: −200 on a fresh display is rendered as the centred
temperature "-200.0 C", not the fault message. -/
theorem C10_exact_sentinel_witness :
    (showTemperature (-200 : ℚ) initDisp).1.screen =
      [DrawCmd.text "-200.0 C" 16 24 2 WHITE,
       DrawCmd.rect 0 0 dispWidth dispHeight WHITE] :=
  (C10_exact_sentinel (-200 : ℚ) initDisp (by decide) (by decide)).2.2.2

end SinkWaterHeater
